import Mathlib

/-!
Verification of the precondition scheduler (`src/rsch/nrf_802154_rsch.c`) of the
nRF IEEE 802.15.4 radio driver.

The module's global variables become fields of an explicit state record
(`RschState`) and each C function becomes a Lean function from the state (plus
the values the function reads from the external timer facility) to the new
state together with the list of side effects it issues to collaborators
(clock start/stop, arbiter enter/exit, core callbacks, timer arming).

The `rsch_prio_t` / `rsch_prec_t` enumerations and the timer-scheduling
facility are external to the visible sources, so they are modelled from the
specification where noted.  32-bit arithmetic is made explicit through
`add32` / `sub32`.

The mutex-protected critical sections (`all_prec_update`, `notify_core`) are
embedded as their single uncontended iteration: the retry loop re-runs the
very same body, so the body is what the functional claims are about.
-/

namespace Rsch

/-- 2^32, the modulus of the `uint32_t` arithmetic used throughout the module. -/
def U32 : Nat := 4294967296

/-- 32-bit addition. -/
def add32 (a b : Nat) : Nat := (a + b) % U32

/-- 32-bit subtraction (wrapping). -/
def sub32 (a b : Nat) : Nat := (a % U32 + U32 - b % U32) % U32

/-- `PREC_RAMP_UP_TIME`: ramp-up time of preconditions in microseconds. -/
def PREC_RAMP_UP_TIME : Nat := 300

/-- Modelled from the spec: the priority scale is a small totally-ordered set
with a distinguished minimum `RSCH_PRIO_IDLE` and maximum `RSCH_PRIO_MAX`;
its exact cardinality is a policy choice of the surrounding driver (§3 of the
spec).  We represent levels as natural numbers with idle at 0. -/
def RSCH_PRIO_IDLE : Nat := 0

/-- Modelled from the spec: the distinguished maximum priority level
(`RSCH_PRIO_MAX`).  Any value above 0 works for the scheduler's logic; we fix
a representative scale of five levels. -/
def RSCH_PRIO_MAX : Nat := 4

/-- Modelled from the spec: the fixed set of preconditions — high-frequency
clock readiness (`RSCH_PREC_HFCLK`) and arbiter grant (`RSCH_PREC_RAAL`). -/
inductive RschPrec where
  | hfclk
  | raal
deriving DecidableEq, Repr

/-- `RSCH_PREC_CNT`: the number of preconditions. -/
def RSCH_PREC_CNT : Nat := 2

/-- Array index of each precondition in `m_approved_prios`. -/
def precIdx : RschPrec → Nat
  | .hfclk => 0
  | .raal => 1

/-- The module's mutable state: one field per global variable of
`nrf_802154_rsch.c` (the mutexes are elided, see the module comment; the
`m_timer` structure is represented by the timer-arming side effects). -/
@[ext]
structure RschState where
  last_notified_prio : Nat
  approved_hfclk : Nat
  approved_raal : Nat
  requested_prio : Nat
  cont_mode_prio : Nat
  delayed_timeslot_prio : Nat
  delayed_timeslot_t0 : Nat
  delayed_timeslot_dt : Nat
deriving DecidableEq, Repr

/-- Read a precondition's slot of the `m_approved_prios` array. -/
def RschState.approved (s : RschState) : RschPrec → Nat
  | .hfclk => s.approved_hfclk
  | .raal => s.approved_raal

/-- The `m_approved_prios` array as a list (index order `precIdx`). -/
def m_approved_prios (s : RschState) : List Nat :=
  [s.approved_hfclk, s.approved_raal]

/-- The state established by `nrf_802154_rsch_init`: every priority field is
`RSCH_PRIO_IDLE` (the time-base fields are not written by init; we take 0). -/
def initState : RschState :=
  { last_notified_prio := RSCH_PRIO_IDLE
    approved_hfclk := RSCH_PRIO_IDLE
    approved_raal := RSCH_PRIO_IDLE
    requested_prio := RSCH_PRIO_IDLE
    cont_mode_prio := RSCH_PRIO_IDLE
    delayed_timeslot_prio := RSCH_PRIO_IDLE
    delayed_timeslot_t0 := 0
    delayed_timeslot_dt := 0 }

/-- Modelled from the spec: the timer facility's
`nrf_802154_timer_sched_time_is_in_future(now, t0, dt)` (§6), used by the code
as "`now` is still strictly before `t0 + dt`" (§4.5); the target time is
computed in 32-bit arithmetic. -/
def time_is_in_future (now t0 dt : Nat) : Bool :=
  now < add32 t0 dt

/-- The timer callbacks this module registers with the timer facility. -/
inductive TimerCb where
  | precRequest
  | start
deriving DecidableEq, Repr

/-- Side effects issued to the collaborators. -/
inductive Effect where
  | hfclkStop
  | hfclkStopTerminate
  | hfclkStart
  | raalContModeEnter
  | raalContModeExit
  | contPrioChanged (lvl : Nat)
  | delayedTimeslotStarted
  | delayedTimeslotFailed
  | timerSchedAdd (t0 dt : Nat) (cb : TimerCb) (roundUp : Bool)
deriving DecidableEq, Repr

/-- `any_prec_should_be_requested_for_delayed_timeslot`: true when a delayed
timeslot is recorded (priority above idle) and the pre-request point
`t0 + (delayed dt − PREC_RAMP_UP_TIME − granularity)` is no longer in the
future relative to `now`. -/
def any_prec_should_be_requested_for_delayed_timeslot
    (s : RschState) (now gran : Nat) : Bool :=
  let t0 := s.delayed_timeslot_t0
  let dt := sub32 (sub32 s.delayed_timeslot_dt PREC_RAMP_UP_TIME) gran
  decide (s.delayed_timeslot_prio > RSCH_PRIO_IDLE) && !(time_is_in_future now t0 dt)

/-- `required_prio_lvl_get`: the priority level that should currently be
requested from all preconditions. -/
def required_prio_lvl_get (s : RschState) (now gran : Nat) : Nat :=
  let result := RSCH_PRIO_IDLE
  let result :=
    if any_prec_should_be_requested_for_delayed_timeslot s now gran then
      s.delayed_timeslot_prio
    else
      result
  if s.cont_mode_prio > result then s.cont_mode_prio else result

/-- `prec_approved_prio_set`: record an approved priority for a precondition,
silently dropping a non-idle approval when nothing is requested. -/
def prec_approved_prio_set (s : RschState) (prec : RschPrec) (prio : Nat) :
    RschState :=
  if s.requested_prio = RSCH_PRIO_IDLE ∧ prio ≠ RSCH_PRIO_IDLE then
    s
  else
    match prec with
    | .hfclk => { s with approved_hfclk := prio }
    | .raal => { s with approved_raal := prio }

/-- `approved_prio_lvl_get`: fold of the C loop that scans `m_approved_prios`
downward from `RSCH_PRIO_MAX`. -/
def approved_prio_lvl_get (s : RschState) : Nat :=
  (m_approved_prios s).foldl
    (fun result a => if a < result then a else result) RSCH_PRIO_MAX

/-- `requested_prio_lvl_is_at_least`. -/
def requested_prio_lvl_is_at_least (s : RschState) (prio : Nat) : Bool :=
  decide (s.requested_prio ≥ prio)

/-- `all_prec_update` (one uncontended pass of its critical section): when the
required level changed, record it and issue the start/stop side effects. -/
def all_prec_update (s : RschState) (now gran : Nat) : RschState × List Effect :=
  let prev_prio := s.requested_prio
  let new_prio := required_prio_lvl_get s now gran
  if prev_prio ≠ new_prio then
    let s := { s with requested_prio := new_prio }
    if new_prio = RSCH_PRIO_IDLE then
      let s := prec_approved_prio_set s .hfclk RSCH_PRIO_IDLE
      let s := prec_approved_prio_set s .raal RSCH_PRIO_IDLE
      (s, [Effect.hfclkStop, Effect.raalContModeExit])
    else
      (s, [Effect.hfclkStopTerminate, Effect.hfclkStart, Effect.raalContModeEnter])
  else
    (s, [])

/-- `notify_core` (one uncontended pass of its critical section): report the
approved level to the driver core when continuous mode is active and the
level differs from the last notified one. -/
def notify_core (s : RschState) : RschState × List Effect :=
  let approved_prio_lvl := approved_prio_lvl_get s
  if s.cont_mode_prio > RSCH_PRIO_IDLE ∧ s.last_notified_prio ≠ approved_prio_lvl then
    ({ s with last_notified_prio := approved_prio_lvl },
      [Effect.contPrioChanged approved_prio_lvl])
  else
    (s, [])

/-- `delayed_timeslot_start`: the start-timer callback — read and clear the
recorded priority, then report success or failure depending on the approved
level. -/
def delayed_timeslot_start (s : RschState) : RschState × List Effect :=
  let req_prio_lvl := s.delayed_timeslot_prio
  let s := { s with delayed_timeslot_prio := RSCH_PRIO_IDLE }
  if approved_prio_lvl_get s ≥ req_prio_lvl then
    (s, [Effect.delayedTimeslotStarted])
  else
    (s, [Effect.delayedTimeslotFailed])

/-- `nrf_802154_rsch_delayed_timeslot_request`: schedule a future timeslot.
Returns the new state, the side effects, and the boolean result. -/
def nrf_802154_rsch_delayed_timeslot_request
    (s : RschState) (now t0 dt length prio : Nat) :
    RschState × List Effect × Bool :=
  let _ := length
  let req_dt := sub32 dt PREC_RAMP_UP_TIME
  if time_is_in_future now t0 req_dt then
    ({ s with delayed_timeslot_prio := prio
              delayed_timeslot_t0 := t0
              delayed_timeslot_dt := dt },
      [Effect.timerSchedAdd t0 req_dt TimerCb.precRequest false], true)
  else if requested_prio_lvl_is_at_least s RSCH_PRIO_MAX
          && time_is_in_future now t0 dt then
    ({ s with delayed_timeslot_prio := prio
              delayed_timeslot_t0 := t0
              delayed_timeslot_dt := dt },
      [Effect.timerSchedAdd t0 dt TimerCb.start true], true)
  else
    (s, [], false)

/-- `nrf_802154_rsch_continuous_mode_priority_set`: record the continuous-mode
priority, update the preconditions, notify the core, and on exit to idle reset
the last-notified level. -/
def nrf_802154_rsch_continuous_mode_priority_set
    (s : RschState) (now gran prio : Nat) : RschState × List Effect :=
  let s := { s with cont_mode_prio := prio }
  let r1 := all_prec_update s now gran
  let r2 := notify_core r1.1
  let s :=
    if prio = RSCH_PRIO_IDLE then
      { r2.1 with last_notified_prio := RSCH_PRIO_IDLE }
    else
      r2.1
  (s, r1.2 ++ r2.2)

/-- The bounds check of the assertion at the top of `prec_approved_prio_set`
(`assert(prec <= RSCH_PREC_CNT)`), on the raw array index. -/
def prec_assert_accepts (prec : Nat) : Bool :=
  decide (prec ≤ RSCH_PREC_CNT)

/-- The array indices passed to `prec_approved_prio_set` at its call sites
inside the module: `all_prec_update` (HFCLK then RAAL),
`nrf_raal_timeslot_started` (RAAL), `nrf_raal_timeslot_ended` (RAAL) and
`nrf_802154_clock_hfclk_ready` (HFCLK). -/
def prec_approved_prio_set_call_indices : List Nat :=
  [precIdx .hfclk, precIdx .raal, precIdx .raal, precIdx .raal, precIdx .hfclk]

/-- The spec's notion (§3, §4.2) of the delayed timeslot's "effective"
priority: the recorded priority when it is non-idle and the pre-request point
`t0 + (dt − ramp-up − granularity)` is not in the future, idle otherwise.
Stated from the spec's words, to be compared with `required_prio_lvl_get`. -/
def effective_delayed_prio_spec (s : RschState) (now gran : Nat) : Nat :=
  if s.delayed_timeslot_prio ≠ RSCH_PRIO_IDLE ∧
      time_is_in_future now s.delayed_timeslot_t0
        (sub32 (sub32 s.delayed_timeslot_dt PREC_RAMP_UP_TIME) gran) = false then
    s.delayed_timeslot_prio
  else
    RSCH_PRIO_IDLE

/-! ### Helper lemmas -/

/-- The C fold over `m_approved_prios` computes the minimum of the two
approvals, provided both are within the priority scale. -/
theorem approved_prio_lvl_get_eq_min (s : RschState)
    (h1 : s.approved_hfclk ≤ RSCH_PRIO_MAX) (h2 : s.approved_raal ≤ RSCH_PRIO_MAX) :
    approved_prio_lvl_get s = min s.approved_hfclk s.approved_raal := by
  unfold approved_prio_lvl_get m_approved_prios
  simp only [List.foldl]
  simp only [Nat.min_def]
  split_ifs <;> omega

/-- `notify_core` unfolded to its conditional. -/
theorem notify_core_eq (s : RschState) :
    notify_core s =
      if s.cont_mode_prio > RSCH_PRIO_IDLE ∧
          s.last_notified_prio ≠ approved_prio_lvl_get s then
        ({ s with last_notified_prio := approved_prio_lvl_get s },
          [Effect.contPrioChanged (approved_prio_lvl_get s)])
      else
        (s, []) := rfl

/-- `required_prio_lvl_get` depends only on the continuous-mode priority and
the delayed-timeslot fields. -/
theorem required_prio_lvl_congr (s t : RschState) (now gran : Nat)
    (h1 : t.cont_mode_prio = s.cont_mode_prio)
    (h2 : t.delayed_timeslot_prio = s.delayed_timeslot_prio)
    (h3 : t.delayed_timeslot_t0 = s.delayed_timeslot_t0)
    (h4 : t.delayed_timeslot_dt = s.delayed_timeslot_dt) :
    required_prio_lvl_get t now gran = required_prio_lvl_get s now gran := by
  unfold required_prio_lvl_get any_prec_should_be_requested_for_delayed_timeslot
  rw [h1, h2, h3, h4]

/-- `approved_prio_lvl_get` depends only on the approval array. -/
theorem approved_prio_lvl_congr (s t : RschState)
    (h1 : t.approved_hfclk = s.approved_hfclk)
    (h2 : t.approved_raal = s.approved_raal) :
    approved_prio_lvl_get t = approved_prio_lvl_get s := by
  unfold approved_prio_lvl_get m_approved_prios
  rw [h1, h2]

/-- When the required level equals the requested one, `all_prec_update` does
nothing. -/
theorem all_prec_update_noop (s : RschState) (now gran : Nat)
    (h : required_prio_lvl_get s now gran = s.requested_prio) :
    all_prec_update s now gran = (s, []) := by
  unfold all_prec_update
  rw [if_neg]
  simp [h]

/-- When continuous mode is inactive or the approved level was already
notified, `notify_core` does nothing. -/
theorem notify_core_noop (s : RschState)
    (h : s.cont_mode_prio = RSCH_PRIO_IDLE ∨
      s.last_notified_prio = approved_prio_lvl_get s) :
    notify_core s = (s, []) := by
  have hneg : ¬ (s.cont_mode_prio > RSCH_PRIO_IDLE ∧
      s.last_notified_prio ≠ approved_prio_lvl_get s) := by
    rcases h with h | h
    · intro hc
      exact absurd hc.1 (by simp [h])
    · intro hc
      exact hc.2 h
  rw [notify_core_eq, if_neg hneg]

/-- `all_prec_update` preserves every field except the requested level and the
approvals, and records the required level as the requested one. -/
theorem all_prec_update_fields (s : RschState) (now gran : Nat) :
    (all_prec_update s now gran).1.cont_mode_prio = s.cont_mode_prio ∧
    (all_prec_update s now gran).1.delayed_timeslot_prio = s.delayed_timeslot_prio ∧
    (all_prec_update s now gran).1.delayed_timeslot_t0 = s.delayed_timeslot_t0 ∧
    (all_prec_update s now gran).1.delayed_timeslot_dt = s.delayed_timeslot_dt ∧
    (all_prec_update s now gran).1.last_notified_prio = s.last_notified_prio ∧
    (all_prec_update s now gran).1.requested_prio = required_prio_lvl_get s now gran := by
  simp only [all_prec_update, prec_approved_prio_set]
  split_ifs <;> simp_all

/-- `notify_core` preserves every field except the last-notified level. -/
theorem notify_core_fields (s : RschState) :
    (notify_core s).1.cont_mode_prio = s.cont_mode_prio ∧
    (notify_core s).1.requested_prio = s.requested_prio ∧
    (notify_core s).1.approved_hfclk = s.approved_hfclk ∧
    (notify_core s).1.approved_raal = s.approved_raal ∧
    (notify_core s).1.delayed_timeslot_prio = s.delayed_timeslot_prio ∧
    (notify_core s).1.delayed_timeslot_t0 = s.delayed_timeslot_t0 ∧
    (notify_core s).1.delayed_timeslot_dt = s.delayed_timeslot_dt := by
  rw [notify_core_eq]
  split_ifs <;> simp

/-- After `notify_core` runs with continuous mode active, the last-notified
level equals the approved level it computed. -/
theorem notify_core_post (s : RschState) (h : s.cont_mode_prio > RSCH_PRIO_IDLE) :
    (notify_core s).1.last_notified_prio = approved_prio_lvl_get s := by
  rw [notify_core_eq]
  split_ifs with hc
  · simp
  · push_neg at hc
    exact hc h

/-! ### Claims -/

/-- C9 counterexample: for `delayed_timeslot_request(t0=1000, dt=500,
length=200, prio=MAX)` at `now=100` on the freshly initialized state, the
code arms the pre-request timer with base 1000 and delta `dt − 300 = 200`,
i.e. it fires at 1200, not at 1190 as the claim states; and a call made at
`now = 1195`, past the claimed close of 1190, still succeeds, so the success
window does not close at 1190 either. -/
theorem delayed_timeslot_request_scenario_cx :
    (nrf_802154_rsch_delayed_timeslot_request initState 100 1000 500 200
        RSCH_PRIO_MAX).2.1 =
      [Effect.timerSchedAdd 1000 200 TimerCb.precRequest false] ∧
    add32 1000 200 ≠ 1190 ∧
    (nrf_802154_rsch_delayed_timeslot_request initState 1195 1000 500 200
        RSCH_PRIO_MAX).2.2 = true ∧
    ¬ (1195 < 1190) := by
  refine ⟨by decide, by decide, by decide, by decide⟩

/-- C9 (amended): the call `delayed_timeslot_request(t0=1000, dt=500,
length=200, prio=MAX)` at `now=100` succeeds because `now` is before the
pre-request point `t0 + (dt − 300) = 1200`, records the request fields and
arms the pre-request timer to fire at 1200; the value
`t0 + dt − 300 − 10 = 1190` (granularity 10) is instead where the
delayed timeslot's effective-priority window opens:
`any_prec_should_be_requested_for_delayed_timeslot` is false at `now = 1189`
and true at `now = 1190`. -/
theorem delayed_timeslot_request_scenario :
    nrf_802154_rsch_delayed_timeslot_request initState 100 1000 500 200
        RSCH_PRIO_MAX =
      ({ initState with delayed_timeslot_prio := RSCH_PRIO_MAX
                        delayed_timeslot_t0 := 1000
                        delayed_timeslot_dt := 500 },
        [Effect.timerSchedAdd 1000 200 TimerCb.precRequest false], true) ∧
    add32 1000 200 = 1200 ∧
    (100 < 1200) ∧
    any_prec_should_be_requested_for_delayed_timeslot
      { initState with delayed_timeslot_prio := RSCH_PRIO_MAX
                       delayed_timeslot_t0 := 1000
                       delayed_timeslot_dt := 500 } 1189 10 = false ∧
    any_prec_should_be_requested_for_delayed_timeslot
      { initState with delayed_timeslot_prio := RSCH_PRIO_MAX
                       delayed_timeslot_t0 := 1000
                       delayed_timeslot_dt := 500 } 1190 10 = true := by
  refine ⟨by decide, by decide, by decide, by decide, by decide⟩

/-- C10: the bounds assertion in `prec_approved_prio_set` checks
`prec <= RSCH_PREC_CNT`, so it accepts the index `RSCH_PREC_CNT`, which is one
past the end of `m_approved_prios`; nevertheless every in-module call site
passes the index of `RSCH_PREC_HFCLK` or `RSCH_PREC_RAAL`, both strictly below
`RSCH_PREC_CNT`, so every reachable array write is in bounds. -/
theorem prec_approved_prio_set_bounds :
    prec_assert_accepts RSCH_PREC_CNT = true ∧
    ¬ (RSCH_PREC_CNT < RSCH_PREC_CNT) ∧
    (m_approved_prios initState).length = RSCH_PREC_CNT ∧
    prec_approved_prio_set_call_indices.all
      (fun p => decide (p < RSCH_PREC_CNT)) = true := by
  refine ⟨by decide, by decide, by decide, by decide⟩

/-- C5: `approved_prio_lvl_get` returns the minimum of the approved priority
levels of all preconditions; it is a pure function of the approval array,
recomputed from it on every call, hence never stale. -/
theorem approved_prio_lvl_get_is_min (s : RschState)
    (h1 : s.approved_hfclk ≤ RSCH_PRIO_MAX) (h2 : s.approved_raal ≤ RSCH_PRIO_MAX) :
    approved_prio_lvl_get s = min s.approved_hfclk s.approved_raal :=
  approved_prio_lvl_get_eq_min s h1 h2

/-- C1: with `prio` non-idle and no delayed timeslot outstanding,
`nrf_802154_rsch_delayed_timeslot_request` (a) records the request fields,
arms the pre-request timer at `t0 + (dt − ramp-up)` and returns true when
`now` is strictly before `t0 + (dt − ramp-up)`; (b) otherwise, when the
requested level is at least `RSCH_PRIO_MAX` and `now` is before `t0 + dt`,
records the fields, arms only the start timer at `t0 + dt` and returns true;
(c) in every remaining case returns false with the state unchanged and no
timer armed. -/
theorem delayed_timeslot_request_cases (s : RschState) (now t0 dt length prio : Nat)
    (hprio : prio ≠ RSCH_PRIO_IDLE)
    (hidle : s.delayed_timeslot_prio = RSCH_PRIO_IDLE) :
    (time_is_in_future now t0 (sub32 dt PREC_RAMP_UP_TIME) = true →
      nrf_802154_rsch_delayed_timeslot_request s now t0 dt length prio =
        ({ s with delayed_timeslot_prio := prio
                  delayed_timeslot_t0 := t0
                  delayed_timeslot_dt := dt },
          [Effect.timerSchedAdd t0 (sub32 dt PREC_RAMP_UP_TIME)
            TimerCb.precRequest false], true)) ∧
    (time_is_in_future now t0 (sub32 dt PREC_RAMP_UP_TIME) = false →
      requested_prio_lvl_is_at_least s RSCH_PRIO_MAX = true →
      time_is_in_future now t0 dt = true →
      nrf_802154_rsch_delayed_timeslot_request s now t0 dt length prio =
        ({ s with delayed_timeslot_prio := prio
                  delayed_timeslot_t0 := t0
                  delayed_timeslot_dt := dt },
          [Effect.timerSchedAdd t0 dt TimerCb.start true], true)) ∧
    (time_is_in_future now t0 (sub32 dt PREC_RAMP_UP_TIME) = false →
      (requested_prio_lvl_is_at_least s RSCH_PRIO_MAX = false ∨
        time_is_in_future now t0 dt = false) →
      nrf_802154_rsch_delayed_timeslot_request s now t0 dt length prio =
        (s, [], false)) := by
  refine ⟨?_, ?_, ?_⟩
  · intro h1
    simp [nrf_802154_rsch_delayed_timeslot_request, h1]
  · intro h1 h2 h3
    simp [nrf_802154_rsch_delayed_timeslot_request, h1, h2, h3]
  · intro h1 h2
    rcases h2 with h2 | h2 <;>
      simp [nrf_802154_rsch_delayed_timeslot_request, h1, h2]

/-- Witness for C1 exercising the pre-request branch at concrete inputs. -/
theorem delayed_timeslot_request_cases_witness :
    RSCH_PRIO_MAX ≠ RSCH_PRIO_IDLE ∧
    initState.delayed_timeslot_prio = RSCH_PRIO_IDLE ∧
    time_is_in_future 100 1000 (sub32 500 PREC_RAMP_UP_TIME) = true ∧
    nrf_802154_rsch_delayed_timeslot_request initState 100 1000 500 200
        RSCH_PRIO_MAX =
      ({ initState with delayed_timeslot_prio := RSCH_PRIO_MAX
                        delayed_timeslot_t0 := 1000
                        delayed_timeslot_dt := 500 },
        [Effect.timerSchedAdd 1000 (sub32 500 PREC_RAMP_UP_TIME)
          TimerCb.precRequest false], true) :=
  ⟨by decide, by decide, by decide,
    (delayed_timeslot_request_cases initState 100 1000 500 200 RSCH_PRIO_MAX
      (by decide) (by decide)).1 (by decide)⟩

/-- C2: the start-timer callback resets the recorded delayed-timeslot
priority to idle and then reports exactly one outcome: started when the
freshly computed approved level (the minimum over the preconditions) is at
least the recorded priority, failed otherwise. -/
theorem delayed_timeslot_start_outcome (s : RschState)
    (h1 : s.approved_hfclk ≤ RSCH_PRIO_MAX)
    (h2 : s.approved_raal ≤ RSCH_PRIO_MAX) :
    (delayed_timeslot_start s).1.delayed_timeslot_prio = RSCH_PRIO_IDLE ∧
    ((delayed_timeslot_start s).2 = [Effect.delayedTimeslotStarted] ↔
      min s.approved_hfclk s.approved_raal ≥ s.delayed_timeslot_prio) ∧
    ((delayed_timeslot_start s).2 = [Effect.delayedTimeslotFailed] ↔
      ¬ min s.approved_hfclk s.approved_raal ≥ s.delayed_timeslot_prio) := by
  have hmin : approved_prio_lvl_get
      { s with delayed_timeslot_prio := RSCH_PRIO_IDLE } =
      min s.approved_hfclk s.approved_raal :=
    approved_prio_lvl_get_eq_min _ h1 h2
  simp only [delayed_timeslot_start, hmin]
  split_ifs with h <;> simp [h]

/-- A concrete state exercising C2: approvals 4 and 1, delayed priority 2. -/
def startExampleState : RschState :=
  { initState with
      approved_hfclk := 4
      approved_raal := 1
      delayed_timeslot_prio := 2 }

/-- Witness for C2 at a concrete state (approvals at 4 and 1, priority 2:
the timeslot fails and the recorded priority is reset). -/
theorem delayed_timeslot_start_outcome_witness :
    startExampleState.approved_hfclk ≤ RSCH_PRIO_MAX ∧
    startExampleState.approved_raal ≤ RSCH_PRIO_MAX ∧
    ((delayed_timeslot_start startExampleState).1.delayed_timeslot_prio =
        RSCH_PRIO_IDLE ∧
      ((delayed_timeslot_start startExampleState).2 =
          [Effect.delayedTimeslotStarted] ↔
        min startExampleState.approved_hfclk startExampleState.approved_raal ≥
          startExampleState.delayed_timeslot_prio) ∧
      ((delayed_timeslot_start startExampleState).2 =
          [Effect.delayedTimeslotFailed] ↔
        ¬ min startExampleState.approved_hfclk startExampleState.approved_raal ≥
          startExampleState.delayed_timeslot_prio)) :=
  ⟨by decide, by decide,
    delayed_timeslot_start_outcome startExampleState (by decide) (by decide)⟩

/-- C3: the notifier's critical section invokes the continuous-priority
callback exactly when continuous mode is active and the freshly computed
approved level differs from the last-notified one, updating the latter; and
running it again immediately afterwards produces no callback, so a level is
never reported twice in a row and nothing is reported while continuous mode
is inactive. -/
theorem notify_core_spec (s : RschState) :
    notify_core s =
      (if s.cont_mode_prio > RSCH_PRIO_IDLE ∧
          s.last_notified_prio ≠ approved_prio_lvl_get s then
        ({ s with last_notified_prio := approved_prio_lvl_get s },
          [Effect.contPrioChanged (approved_prio_lvl_get s)])
      else
        (s, [])) ∧
    (notify_core (notify_core s).1).2 = [] := by
  refine ⟨notify_core_eq s, ?_⟩
  rw [notify_core_eq s]
  split_ifs with h
  · have happ : approved_prio_lvl_get
        { s with last_notified_prio := approved_prio_lvl_get s } =
        approved_prio_lvl_get s :=
      approved_prio_lvl_congr s _ rfl rfl
    rw [notify_core_eq]
    rw [if_neg (by simp [happ])]
  · rw [notify_core_eq, if_neg h]

/-- C4: `required_prio_lvl_get` is the maximum of the continuous-mode
priority and the delayed timeslot's effective priority (the recorded priority
when non-idle and the pre-request point is not in the future, idle
otherwise); in particular it is idle when neither demand is in force. -/
theorem required_prio_lvl_get_eq_max (s : RschState) (now gran : Nat) :
    required_prio_lvl_get s now gran =
      max s.cont_mode_prio (effective_delayed_prio_spec s now gran) := by
  simp only [required_prio_lvl_get, effective_delayed_prio_spec,
    any_prec_should_be_requested_for_delayed_timeslot, Bool.and_eq_true,
    decide_eq_true_eq, Bool.not_eq_true', RSCH_PRIO_IDLE, Nat.max_def]
  split_ifs <;> simp_all <;> omega

/-- C6: when `all_prec_update` runs its critical section and the required
level differs from the requested one, it records the new level; on a change
to idle it issues clock stop and arbiter exit and marks both approvals idle,
on a change to non-idle it terminates any pending clock stop, issues clock
start and arbiter enter. -/
theorem all_prec_update_side_effects (s : RschState) (now gran : Nat)
    (hch : required_prio_lvl_get s now gran ≠ s.requested_prio) :
    (required_prio_lvl_get s now gran = RSCH_PRIO_IDLE →
      all_prec_update s now gran =
        ({ s with requested_prio := RSCH_PRIO_IDLE
                  approved_hfclk := RSCH_PRIO_IDLE
                  approved_raal := RSCH_PRIO_IDLE },
          [Effect.hfclkStop, Effect.raalContModeExit])) ∧
    (required_prio_lvl_get s now gran ≠ RSCH_PRIO_IDLE →
      all_prec_update s now gran =
        ({ s with requested_prio := required_prio_lvl_get s now gran },
          [Effect.hfclkStopTerminate, Effect.hfclkStart,
            Effect.raalContModeEnter])) := by
  have hne : s.requested_prio ≠ required_prio_lvl_get s now gran :=
    fun h => hch h.symm
  constructor
  · intro h0
    have hne0 : ¬ s.requested_prio = RSCH_PRIO_IDLE := h0 ▸ hne
    simp [all_prec_update, prec_approved_prio_set, hne0, h0]
  · intro h0
    simp [all_prec_update, prec_approved_prio_set, hne, h0]

/-- Witness for C6 at a concrete state: continuous mode at level 2 with
nothing yet requested takes the non-idle branch. -/
theorem all_prec_update_side_effects_witness :
    required_prio_lvl_get { initState with cont_mode_prio := 2 } 0 0 ≠
      ({ initState with cont_mode_prio := 2 } : RschState).requested_prio ∧
    required_prio_lvl_get { initState with cont_mode_prio := 2 } 0 0 ≠
      RSCH_PRIO_IDLE ∧
    all_prec_update { initState with cont_mode_prio := 2 } 0 0 =
      ({ { initState with cont_mode_prio := 2 } with
          requested_prio := required_prio_lvl_get
            { initState with cont_mode_prio := 2 } 0 0 },
        [Effect.hfclkStopTerminate, Effect.hfclkStart,
          Effect.raalContModeEnter]) :=
  ⟨by decide, by decide,
    (all_prec_update_side_effects { initState with cont_mode_prio := 2 } 0 0
      (by decide)).2 (by decide)⟩

/-- C8: `prec_approved_prio_set` silently drops a non-idle approval while the
requested level is idle, leaving the whole state unchanged; an idle approval
is recorded for the given precondition regardless of the requested level. -/
theorem prec_approved_prio_set_stale_drop (s : RschState) (prec : RschPrec)
    (prio : Nat) :
    (s.requested_prio = RSCH_PRIO_IDLE → prio ≠ RSCH_PRIO_IDLE →
      prec_approved_prio_set s prec prio = s) ∧
    (prec_approved_prio_set s prec RSCH_PRIO_IDLE).approved prec =
      RSCH_PRIO_IDLE := by
  constructor
  · intro h1 h2
    unfold prec_approved_prio_set
    rw [if_pos ⟨h1, h2⟩]
  · unfold prec_approved_prio_set
    rw [if_neg (by simp)]
    cases prec <;> rfl

/-- Witness for C8: a stale approval at level 2 is dropped on the initial
state, and an idle approval is recorded. -/
theorem prec_approved_prio_set_stale_drop_witness :
    initState.requested_prio = RSCH_PRIO_IDLE ∧
    (2 : Nat) ≠ RSCH_PRIO_IDLE ∧
    prec_approved_prio_set initState RschPrec.hfclk 2 = initState ∧
    (prec_approved_prio_set initState RschPrec.raal
        RSCH_PRIO_IDLE).approved RschPrec.raal = RSCH_PRIO_IDLE :=
  ⟨by decide, by decide,
    (prec_approved_prio_set_stale_drop initState RschPrec.hfclk 2).1
      (by decide) (by decide),
    (prec_approved_prio_set_stale_drop initState RschPrec.raal 0).2⟩

/-- Witness for C5 at a concrete approval array. -/
theorem approved_prio_lvl_get_is_min_witness :
    ({ initState with approved_hfclk := 3, approved_raal := 1 } :
        RschState).approved_hfclk ≤ RSCH_PRIO_MAX ∧
    ({ initState with approved_hfclk := 3, approved_raal := 1 } :
        RschState).approved_raal ≤ RSCH_PRIO_MAX ∧
    approved_prio_lvl_get { initState with approved_hfclk := 3, approved_raal := 1 } =
      min 3 1 :=
  ⟨by decide, by decide,
    approved_prio_lvl_get_is_min
      { initState with approved_hfclk := 3, approved_raal := 1 }
      (by decide) (by decide)⟩

/-- `nrf_802154_rsch_continuous_mode_priority_set` unfolded to its
composition of `all_prec_update` and `notify_core`. -/
theorem continuous_mode_priority_set_eq (s : RschState) (now gran prio : Nat) :
    nrf_802154_rsch_continuous_mode_priority_set s now gran prio =
      ((if prio = RSCH_PRIO_IDLE then
          { (notify_core (all_prec_update { s with cont_mode_prio := prio }
              now gran).1).1 with last_notified_prio := RSCH_PRIO_IDLE }
        else
          (notify_core (all_prec_update { s with cont_mode_prio := prio }
            now gran).1).1),
        (all_prec_update { s with cont_mode_prio := prio } now gran).2 ++
          (notify_core (all_prec_update { s with cont_mode_prio := prio }
            now gran).1).2) := rfl

/-- Field facts about the state left by `continuous_mode_priority_set`: the
continuous-mode priority is the argument, the delayed-timeslot fields are
untouched, the requested level equals the recomputed required level, and the
last-notified level is idle (after an exit) or the approved level (after a
non-idle set). -/
theorem continuous_mode_priority_set_post (s : RschState) (now gran prio : Nat) :
    (nrf_802154_rsch_continuous_mode_priority_set s now gran prio).1.cont_mode_prio =
      prio ∧
    (nrf_802154_rsch_continuous_mode_priority_set s now gran
        prio).1.delayed_timeslot_prio = s.delayed_timeslot_prio ∧
    (nrf_802154_rsch_continuous_mode_priority_set s now gran
        prio).1.delayed_timeslot_t0 = s.delayed_timeslot_t0 ∧
    (nrf_802154_rsch_continuous_mode_priority_set s now gran
        prio).1.delayed_timeslot_dt = s.delayed_timeslot_dt ∧
    (nrf_802154_rsch_continuous_mode_priority_set s now gran
        prio).1.requested_prio =
      required_prio_lvl_get { s with cont_mode_prio := prio } now gran ∧
    (prio = RSCH_PRIO_IDLE →
      (nrf_802154_rsch_continuous_mode_priority_set s now gran
          prio).1.last_notified_prio = RSCH_PRIO_IDLE) ∧
    (prio ≠ RSCH_PRIO_IDLE →
      (nrf_802154_rsch_continuous_mode_priority_set s now gran
          prio).1.last_notified_prio =
        approved_prio_lvl_get
          (nrf_802154_rsch_continuous_mode_priority_set s now gran prio).1) := by
  obtain ⟨f1, f2, f3, f4, f5, f6⟩ :=
    all_prec_update_fields { s with cont_mode_prio := prio } now gran
  obtain ⟨g1, g2, g3, g4, g5, g6, g7⟩ :=
    notify_core_fields
      (all_prec_update { s with cont_mode_prio := prio } now gran).1
  rw [continuous_mode_priority_set_eq]
  by_cases hp : prio = RSCH_PRIO_IDLE
  · simp only [if_pos hp]
    refine ⟨?_, ?_, ?_, ?_, ?_, fun _ => trivial, fun hn => absurd hp hn⟩
    · simp [g1, f1]
    · simp [g5, f2]
    · simp [g6, f3]
    · simp [g7, f4]
    · simp [g2, f6]
  · simp only [if_neg hp]
    have hp0 : prio ≠ 0 := hp
    refine ⟨?_, ?_, ?_, ?_, ?_, fun h0 => absurd h0 hp, fun _ => ?_⟩
    · simp [g1, f1]
    · simp [g5, f2]
    · simp [g6, f3]
    · simp [g7, f4]
    · simp [g2, f6]
    · have hcont :
          (all_prec_update { s with cont_mode_prio := prio }
            now gran).1.cont_mode_prio > RSCH_PRIO_IDLE := by
        rw [f1]
        show prio > 0
        omega
      have hpost := notify_core_post _ hcont
      have happ :
          approved_prio_lvl_get
            (notify_core (all_prec_update { s with cont_mode_prio := prio }
              now gran).1).1 =
          approved_prio_lvl_get
            (all_prec_update { s with cont_mode_prio := prio } now gran).1 :=
        approved_prio_lvl_congr _ _ g3 g4
      simpa [happ] using hpost

/-- C7: a second call to `nrf_802154_rsch_continuous_mode_priority_set` with
the same priority is idempotent: it issues no side effect at all — in
particular no clock start/stop and no arbiter enter/exit — because the
required level equals the already-requested level, and it leaves the whole
state (including the requested level) unchanged; the side effects of the pair
of calls are exactly those of the first call. -/
theorem continuous_mode_priority_set_idem (s : RschState) (now gran prio : Nat) :
    nrf_802154_rsch_continuous_mode_priority_set
        (nrf_802154_rsch_continuous_mode_priority_set s now gran prio).1
        now gran prio =
      ((nrf_802154_rsch_continuous_mode_priority_set s now gran prio).1, []) := by
  obtain ⟨a, b, c, d, e, f, g⟩ := continuous_mode_priority_set_post s now gran prio
  generalize hfin :
    (nrf_802154_rsch_continuous_mode_priority_set s now gran prio).1 = fin
      at a b c d e f g ⊢
  have hfix : { fin with cont_mode_prio := prio } = fin := by
    ext <;> simp [a]
  have hreq : required_prio_lvl_get fin now gran = fin.requested_prio := by
    rw [e]
    exact required_prio_lvl_congr { s with cont_mode_prio := prio } fin now gran
      (by simp [a]) (by simp [b]) (by simp [c]) (by simp [d])
  have hdisj : fin.cont_mode_prio = RSCH_PRIO_IDLE ∨
      fin.last_notified_prio = approved_prio_lvl_get fin := by
    by_cases hp : prio = RSCH_PRIO_IDLE
    · exact Or.inl (a.trans hp)
    · exact Or.inr (g hp)
  rw [continuous_mode_priority_set_eq, hfix,
    all_prec_update_noop fin now gran hreq]
  by_cases hp : prio = RSCH_PRIO_IDLE
  · have hlast : fin.last_notified_prio = RSCH_PRIO_IDLE := f hp
    simp only [hp, if_pos rfl]
    simp [notify_core_noop fin hdisj]
    ext <;> simp [hlast]
  · simp [notify_core_noop fin hdisj, hp]

end Rsch
